import Mathlib

/-!
Verification development for the hirechain backend.

Shallow embedding of the parts of the code that the stated properties are
about:

* `src/services/hcsSync.service.js` — the mirror-node log replay
  (`fetchAndProcessTopicMessages`, `syncFromMirrorNode` with its
  `gigsProcessor`, `profilesProcessor`, `messagesProcessor` and the bulk
  upsert / delete-then-insert commits).
* `src/utils/solidityCompiler.js` (duplicated in `src/index.js`) —
  `getEntityIdFromTransaction`, the bounded confirmation-polling loop.
* `src/routes/gigs.js` — the record endpoints for gig creation, assignment
  and escrow release.
* `src/routes/applications.js` — apply / accept / reject.
* `src/routes/reviews.js` — review submission.
* `src/routes/profiles.js`, `src/routes/messages.js` — the store-writing
  endpoints of those modules.
* `src/db/connection.js` — the unique-index declarations of the schemas.

JSON payloads are modelled as structures whose `Option` fields encode key
presence (a JS object spread `{ ...a, ...b }` overwrites a field exactly
when `b` has the key, which is `Option.orElse` on the model).  The entity
store (MongoDB collections) is modelled as function maps keyed by the
natural unique key of each collection, plus plain lists for the
append-only collections.  Fields that no stated property touches
(`description`, `duration`, `skills`, `hcsSequenceNumber`, timestamps) are
omitted from the modelled field set; the fields kept are the ones the
reducers and record endpoints force or branch on, plus representative
payload fields (`clientId`, `title`, `budget`) so that the shallow-merge
semantics is visible.
-/

namespace HireChain

/-- A decoded gig-channel HCS message (the JSON parsed in
`fetchAndProcessTopicMessages` and handed to `gigsProcessor` in
`src/services/hcsSync.service.js`).  `Option` encodes key presence. -/
structure GigMsg where
  type : String
  gigRefId : String
  clientId : Option String := none
  title : Option String := none
  budget : Option String := none
  status : Option String := none
  visibility : Option String := none
  escrowContractId : Option String := none
  assignedFreelancerId : Option String := none
  deriving DecidableEq

/-- A materialized gig document (the `gigs` collection of
`src/db/connection.js`, restricted to the modelled field set).
`status` and `visibility` are always present on a materialized document
(the reducer and the schema defaults force them). -/
structure GigRecord where
  type : String
  gigRefId : String
  clientId : Option String
  title : Option String
  budget : Option String
  status : String
  visibility : String
  escrowContractId : Option String
  assignedFreelancerId : Option String
  deriving DecidableEq

/-- JS `message.visibility || 'PUBLIC'` — an absent key and the empty
string (both falsy) default to `PUBLIC`. -/
def jsOrPublic : Option String → String
  | some v => if v = "" then "PUBLIC" else v
  | none => "PUBLIC"

/-- The record seeded by a `GIG_CREATE` event:
`{ ...message, status: 'OPEN', visibility: message.visibility || 'PUBLIC',
escrowContractId: null, assignedFreelancerId: null }`
(hcsSync.service.js lines 52-58). -/
def seedGigFromCreate (msg : GigMsg) : GigRecord :=
  { type := msg.type
    gigRefId := msg.gigRefId
    clientId := msg.clientId
    title := msg.title
    budget := msg.budget
    status := "OPEN"
    visibility := jsOrPublic msg.visibility
    escrowContractId := none
    assignedFreelancerId := none }

/-- The shallow merge `{ ...existing, ...message }` applied by a
`GIG_UPDATE` event (hcsSync.service.js lines 60-61): every key present in
the message overwrites the existing field, absent keys keep the existing
value.  `type` and `gigRefId` are always present in the message. -/
def mergeGigUpdate (existing : GigRecord) (msg : GigMsg) : GigRecord :=
  { type := msg.type
    gigRefId := msg.gigRefId
    clientId := (msg.clientId).orElse (fun _ => existing.clientId)
    title := (msg.title).orElse (fun _ => existing.title)
    budget := (msg.budget).orElse (fun _ => existing.budget)
    status := (msg.status).getD existing.status
    visibility := (msg.visibility).getD existing.visibility
    escrowContractId := (msg.escrowContractId).orElse (fun _ => existing.escrowContractId)
    assignedFreelancerId := (msg.assignedFreelancerId).orElse (fun _ => existing.assignedFreelancerId) }

/-- A collection keyed by its natural unique id, as a function map. -/
def StoreMap (α : Type) : Type := String → Option α

/-- `Map.set` / a keyed upsert of a whole document. -/
def StoreMap.set {α : Type} (m : StoreMap α) (k : String) (v : α) : StoreMap α :=
  fun q => if q = k then some v else m q

/-- The empty map (`new Map()`). -/
def StoreMap.empty {α : Type} : StoreMap α := fun _ => none

/-- One step of `gigsProcessor` (hcsSync.service.js lines 50-63): a
`GIG_CREATE` seeds the map entry, a `GIG_UPDATE` shallow-merges onto an
entry already in the map and is dropped otherwise; other types are
ignored. -/
def gigsProcessorStep (gigsMap : StoreMap GigRecord) (message : GigMsg) : StoreMap GigRecord :=
  if message.type = "GIG_CREATE" then
    gigsMap.set message.gigRefId (seedGigFromCreate message)
  else if message.type = "GIG_UPDATE" then
    match gigsMap message.gigRefId with
    | some existing => gigsMap.set message.gigRefId (mergeGigUpdate existing message)
    | none => gigsMap
  else gigsMap

/-- Folding the whole gig channel through `gigsProcessor`, starting from
the fresh `new Map()` of each `syncFromMirrorNode` run. -/
def gigsFold (log : List GigMsg) : StoreMap GigRecord :=
  log.foldl gigsProcessorStep StoreMap.empty

/-- A decoded profile-channel message; also the shape of a materialized
profile document (the `profilesProcessor` stores the message verbatim). -/
structure ProfileMsg where
  type : String
  userAccountId : String
  name : Option String := none
  email : Option String := none
  profileType : Option String := none
  deriving DecidableEq

/-- One step of `profilesProcessor` (hcsSync.service.js lines 78-82):
every `PROFILE_CREATE` fully replaces the map entry for its account id. -/
def profilesProcessorStep (profilesMap : StoreMap ProfileMsg) (message : ProfileMsg) :
    StoreMap ProfileMsg :=
  if message.type = "PROFILE_CREATE" then
    profilesMap.set message.userAccountId message
  else profilesMap

/-- Folding the whole profile channel through `profilesProcessor`. -/
def profilesFold (log : List ProfileMsg) : StoreMap ProfileMsg :=
  log.foldl profilesProcessorStep StoreMap.empty

/-- A decoded message-channel event; also the shape of a stored message
document (restricted to the modelled field set). -/
structure ChatMsg where
  type : String
  gigRefId : Option String := none
  senderId : Option String := none
  content : Option String := none
  deriving DecidableEq

/-- The `messagesProcessor` filter (hcsSync.service.js lines 97-101):
`message.type === 'GIG_MESSAGE' && message.gigRefId` — a missing or empty
(falsy) `gigRefId` drops the event. -/
def keepsGigMessage (m : ChatMsg) : Bool :=
  m.type == "GIG_MESSAGE" &&
    (match m.gigRefId with
     | some g => g != ""
     | none => false)

/-- `fetchAndProcessTopicMessages` (hcsSync.service.js lines 11-39),
viewed as the list of decoded events handed to the processor in order.
The channel is a list of pages; `failAt = some i` means the fetch of page
`i` throws, which the code catches, logs and `break`s on — so exactly the
pages before `i` are processed.  `failAt = none` is a fully successful
paginated run. -/
def fetchAndProcessTopicMessages {α : Type} (pages : List (List α)) (failAt : Option Nat) :
    List α :=
  match failAt with
  | none => pages.flatten
  | some i => (pages.take i).flatten

/-- An application document (`applications` collection). -/
structure AppRecord where
  appId : Nat
  gigRefId : String
  freelancerId : String
  coverLetter : String
  proposedRate : Option String
  status : String
  deriving DecidableEq

/-- A review document (`reviews` collection). -/
structure ReviewRecord where
  gigRefId : String
  reviewerId : String
  revieweeId : String
  rating : Int
  comment : Option String
  reviewType : String
  deriving DecidableEq

/-- The durable entity store: one field per modelled collection.
`xp` maps an account id to its `xpPoints` (schema default 0, so an absent
document reads as 0).  `nextAppId` models MongoDB's fresh `_id`
generation for application documents. -/
structure Db where
  gigs : StoreMap GigRecord
  profiles : StoreMap ProfileMsg
  messages : List ChatMsg
  xp : String → Nat
  applications : List AppRecord
  reviews : List ReviewRecord
  nextAppId : Nat

theorem Db.ext {a b : Db} (hg : a.gigs = b.gigs) (hp : a.profiles = b.profiles)
    (hm : a.messages = b.messages) (hx : a.xp = b.xp)
    (ha : a.applications = b.applications) (hr : a.reviews = b.reviews)
    (hn : a.nextAppId = b.nextAppId) : a = b := by
  cases a; cases b; simp_all

/-- The store a fresh deployment starts from. -/
def emptyDb : Db :=
  { gigs := StoreMap.empty
    profiles := StoreMap.empty
    messages := []
    xp := fun _ => 0
    applications := []
    reviews := []
    nextAppId := 0 }

/-- A `bulkWrite` of `updateOne` upserts with `$set` of the whole folded
document, keyed by the natural unique id: every key the fold produced is
replaced wholesale, every other key keeps its stored document. -/
def bulkUpsert {α : Type} (folded : StoreMap α) (stored : StoreMap α) : StoreMap α :=
  fun k => (folded k).orElse (fun _ => stored k)

/-- The three mirror-node channels fetched by one `syncFromMirrorNode`
run, each with the page index (if any) whose fetch fails. -/
structure SyncInput where
  gigPages : List (List GigMsg)
  gigFailAt : Option Nat
  profilePages : List (List ProfileMsg)
  profileFailAt : Option Nat
  messagePages : List (List ChatMsg)
  messageFailAt : Option Nat

/-- `syncFromMirrorNode` (hcsSync.service.js lines 45-113): fold each
channel from scratch, then commit — gigs and profiles by bulk upsert
keyed on `gigRefId` / `userAccountId`, messages by `deleteMany({})`
followed by `insertMany` of the filtered event list.  (The `if length >
0` guards around the bulk writes are behaviorally the identity and are
not modelled separately.)  XP, applications and reviews are never touched
by the replay. -/
def syncFromMirrorNode (inp : SyncInput) (db : Db) : Db :=
  let gigLog := fetchAndProcessTopicMessages inp.gigPages inp.gigFailAt
  let profileLog := fetchAndProcessTopicMessages inp.profilePages inp.profileFailAt
  let messageLog := fetchAndProcessTopicMessages inp.messagePages inp.messageFailAt
  { db with
    gigs := bulkUpsert (gigsFold gigLog) db.gigs
    profiles := bulkUpsert (profilesFold profileLog) db.profiles
    messages := messageLog.filter keepsGigMessage }

/-- The outcome a route handler reports (the HTTP status class of the
response). -/
inductive ApiResult where
  | ok
  | created
  | badRequest
  | notFoundErr
  | forbidden
  | conflict
  | serverError
  deriving DecidableEq

/-- JS `value || fallback` on an optional string: an absent key and the
empty string (falsy) yield the fallback. -/
def jsOrElse (o : Option String) (fallback : String) : String :=
  match o with
  | some v => if v = "" then fallback else v
  | none => fallback

/-- `POST /gigs/record-creation` (src/routes/gigs.js lines 37-49):
`Gig.findOneAndUpdate({ gigRefId }, { ...gigData, hcsSequenceNumber,
escrowContractId: null, assignedFreelancerId: null }, { upsert: true })`.
Mongoose treats the plain update object as a `$set`: every key present in
`gigData` overwrites the stored field, and `escrowContractId` /
`assignedFreelancerId` are explicitly set to null; on an upsert-insert the
schema defaults (`status: 'OPEN'`, `visibility: 'PUBLIC'`, `type:
'GIG_CREATE'`) fill the absent fields. -/
def recordGigCreationDoc (db : Db) (gigData : GigMsg) : GigRecord :=
  let base : GigRecord :=
    match db.gigs gigData.gigRefId with
    | some r => r
    | none =>
      { type := "GIG_CREATE"
        gigRefId := gigData.gigRefId
        clientId := none
        title := none
        budget := none
        status := "OPEN"
        visibility := "PUBLIC"
        escrowContractId := none
        assignedFreelancerId := none }
  { type := gigData.type
    gigRefId := gigData.gigRefId
    clientId := (gigData.clientId).orElse (fun _ => base.clientId)
    title := (gigData.title).orElse (fun _ => base.title)
    budget := (gigData.budget).orElse (fun _ => base.budget)
    status := (gigData.status).getD base.status
    visibility := (gigData.visibility).getD base.visibility
    escrowContractId := none
    assignedFreelancerId := none }

/-- The store transition of `record-creation`: upsert the merged document
under the gig's reference id. -/
def recordGigCreation (db : Db) (gigData : GigMsg) : ApiResult × Db :=
  (ApiResult.created,
    { db with gigs := db.gigs.set gigData.gigRefId (recordGigCreationDoc db gigData) })

/-- `POST /gigs/:gigRefId/record-assignment` (src/routes/gigs.js lines
108-123): 404 if the gig is absent, otherwise
`Gig.findOneAndUpdate({ gigRefId }, { status: 'IN_PROGRESS',
assignedFreelancerId: freelancerAccountId })`.  An absent
`freelancerAccountId` in the body is stripped by mongoose, leaving the
stored value; note the handler never sets `escrowContractId`. -/
def recordAssignment (db : Db) (gigRefId : String) (freelancerAccountId : Option String) :
    ApiResult × Db :=
  match db.gigs gigRefId with
  | none => (ApiResult.notFoundErr, db)
  | some gig =>
    let updated : GigRecord :=
      { gig with
        status := "IN_PROGRESS"
        assignedFreelancerId := freelancerAccountId.orElse (fun _ => gig.assignedFreelancerId) }
    (ApiResult.ok, { db with gigs := db.gigs.set gigRefId updated })

/-- `POST /gigs/:gigRefId/record-release-escrow` (src/routes/gigs.js
lines 175-199): with no status or ownership precondition, set the gig's
status to `COMPLETED`; if the gig has an `assignedFreelancerId`, award it
100 XP via `XP.findOneAndUpdate(..., { $inc: { xpPoints: 100 } },
{ upsert: true })`.  When the gig is absent the unfiltered
`findOneAndUpdate` matches nothing and the subsequent field access throws
(a 500), leaving the store unchanged. -/
def recordReleaseEscrow (db : Db) (gigRefId : String) : ApiResult × Db :=
  match db.gigs gigRefId with
  | none => (ApiResult.serverError, db)
  | some gig =>
    let db1 := { db with gigs := db.gigs.set gigRefId { gig with status := "COMPLETED" } }
    match gig.assignedFreelancerId with
    | some freelancerId =>
      (ApiResult.ok,
        { db1 with xp := fun a => if a = freelancerId then db1.xp a + 100 else db1.xp a })
    | none => (ApiResult.ok, db1)

/-- `POST /applications/apply` (src/routes/applications.js lines 15-80):
required-field check (JS falsiness: the empty string fails it), gig must
exist, be `PUBLIC` and `OPEN`, no prior application by the same
freelancer for the same gig (409 otherwise), then create a `PENDING`
application. -/
def applyToGig (db : Db) (gigRefId freelancerId coverLetter : String)
    (proposedRate : Option String) : ApiResult × Db :=
  if gigRefId = "" ∨ freelancerId = "" ∨ coverLetter = "" then (ApiResult.badRequest, db)
  else
    match db.gigs gigRefId with
    | none => (ApiResult.notFoundErr, db)
    | some gig =>
      if gig.visibility ≠ "PUBLIC" then (ApiResult.forbidden, db)
      else if gig.status ≠ "OPEN" then (ApiResult.forbidden, db)
      else if db.applications.any
          (fun a => a.gigRefId == gigRefId && a.freelancerId == freelancerId) then
        (ApiResult.conflict, db)
      else
        let application : AppRecord :=
          { appId := db.nextAppId
            gigRefId := gigRefId
            freelancerId := freelancerId
            coverLetter := coverLetter
            proposedRate := proposedRate
            status := "PENDING" }
        (ApiResult.created,
          { db with
            applications := db.applications ++ [application]
            nextAppId := db.nextAppId + 1 })

/-- `POST /applications/:applicationId/accept` (src/routes/applications.js
lines 158-212): 404 if the application is absent; 403 unless the caller
owns the gig and the gig is `OPEN`; then set the application `ACCEPTED`
and `Application.updateMany({ gigRefId, _id: { $ne: applicationId },
status: 'PENDING' }, { status: 'REJECTED' })` in the same request. -/
def acceptApplication (db : Db) (applicationId : Nat) (clientId : String) : ApiResult × Db :=
  match db.applications.find? (fun a => a.appId == applicationId) with
  | none => (ApiResult.notFoundErr, db)
  | some application =>
    match db.gigs application.gigRefId with
    | none => (ApiResult.forbidden, db)
    | some gig =>
      if gig.clientId ≠ some clientId then (ApiResult.forbidden, db)
      else if gig.status ≠ "OPEN" then (ApiResult.forbidden, db)
      else
        (ApiResult.ok,
          { db with
            applications := db.applications.map (fun a =>
              if a.appId = applicationId then { a with status := "ACCEPTED" }
              else if a.gigRefId = application.gigRefId ∧ a.status = "PENDING" then
                { a with status := "REJECTED" }
              else a) })

/-- `POST /applications/:applicationId/reject` (src/routes/applications.js
lines 218-243): 404 if absent, 403 unless the caller owns the gig, then
set the one application `REJECTED` (no status precondition). -/
def rejectApplication (db : Db) (applicationId : Nat) (clientId : String) : ApiResult × Db :=
  match db.applications.find? (fun a => a.appId == applicationId) with
  | none => (ApiResult.notFoundErr, db)
  | some application =>
    match db.gigs application.gigRefId with
    | none => (ApiResult.forbidden, db)
    | some gig =>
      if gig.clientId ≠ some clientId then (ApiResult.forbidden, db)
      else
        (ApiResult.ok,
          { db with
            applications := db.applications.map (fun a =>
              if a.appId = applicationId then { a with status := "REJECTED" } else a) })

/-- `POST /reviews/submit` (src/routes/reviews.js lines 14-77): field and
rating-range checks, gig must exist and be `COMPLETED` or
`COMPLETED_BY_ARBITER`; the review type comes from an exact identity
match (`reviewerId === gig.clientId` first, then `=== gig.assignedFreelancerId`,
else 403); a second review by the same reviewer for the same gig is a
409; the stored `revieweeId` falls back to the reviewer
(`revieweeId || reviewerId`) when the matched counterpart is absent. -/
def submitReviewCreate (db : Db) (gigRefId reviewerId : String) (rating : Int)
    (comment : Option String) (reviewType : String) (revieweeId : Option String) :
    ApiResult × Db :=
  if db.reviews.any (fun r => r.gigRefId == gigRefId && r.reviewerId == reviewerId) then
    (ApiResult.conflict, db)
  else
    (ApiResult.created,
      { db with reviews := db.reviews ++
          [{ gigRefId := gigRefId
             reviewerId := reviewerId
             revieweeId := jsOrElse revieweeId reviewerId
             rating := rating
             comment := comment
             reviewType := reviewType }] })

/-- The branch structure of `POST /reviews/submit` after the gig lookup:
status gate, then the participant match (client first, then assigned
freelancer, else a hard 403), then the duplicate check and the create. -/
def submitReview (db : Db) (gigRefId reviewerId : String) (rating : Int)
    (comment : Option String) : ApiResult × Db :=
  if gigRefId = "" ∨ reviewerId = "" then (ApiResult.badRequest, db)
  else if rating < 1 ∨ rating > 5 then (ApiResult.badRequest, db)
  else
    match db.gigs gigRefId with
    | none => (ApiResult.notFoundErr, db)
    | some gig =>
      if gig.status ≠ "COMPLETED" ∧ gig.status ≠ "COMPLETED_BY_ARBITER" then
        (ApiResult.forbidden, db)
      else if gig.clientId = some reviewerId then
        submitReviewCreate db gigRefId reviewerId rating comment
          "CLIENT_TO_FREELANCER" gig.assignedFreelancerId
      else if gig.assignedFreelancerId = some reviewerId then
        submitReviewCreate db gigRefId reviewerId rating comment
          "FREELANCER_TO_CLIENT" gig.clientId
      else (ApiResult.forbidden, db)

/-- `POST /users/record-profile-creation` (src/routes/profiles.js lines
56-71): 400 when the payload or its `userAccountId` is missing, otherwise
`Profile.findOneAndUpdate({ userAccountId }, profileData,
{ upsert: true })` — a `$set` of the keys present in the payload. -/
def recordProfileCreation (db : Db) (profileData : Option ProfileMsg) : ApiResult × Db :=
  match profileData with
  | none => (ApiResult.badRequest, db)
  | some p =>
    if p.userAccountId = "" then (ApiResult.badRequest, db)
    else
      let merged : ProfileMsg :=
        match db.profiles p.userAccountId with
        | none => p
        | some b =>
          { type := p.type
            userAccountId := p.userAccountId
            name := (p.name).orElse (fun _ => b.name)
            email := (p.email).orElse (fun _ => b.email)
            profileType := (p.profileType).orElse (fun _ => b.profileType) }
      (ApiResult.created, { db with profiles := db.profiles.set p.userAccountId merged })

/-- `POST /gigs/:gigRefId/message` (src/routes/messages.js lines 24-48):
404 if the gig is absent, otherwise save a new `Message` document. -/
def postGigMessage (db : Db) (gigRefId message senderId : String) : ApiResult × Db :=
  match db.gigs gigRefId with
  | none => (ApiResult.notFoundErr, db)
  | some _ =>
    (ApiResult.ok,
      { db with
        messages := db.messages ++
          [{ type := "GIG_MESSAGE"
             gigRefId := some gigRefId
             senderId := some senderId
             content := some message }] })

/-- The store-mutating operations of the system: one constructor per
modelled route handler plus the replay.  (The remaining routes of the
repository — rewards, invitations, freelancer search, the AI agent — do
not write to any collection modelled here; in particular none of them
writes XP, which `src/routes/rewards.js` only reads.) -/
inductive Op where
  | sync (inp : SyncInput)
  | recordGigCreation (gigData : GigMsg)
  | recordAssignment (gigRefId : String) (freelancerAccountId : Option String)
  | recordReleaseEscrow (gigRefId : String)
  | applyToGig (gigRefId freelancerId coverLetter : String) (proposedRate : Option String)
  | acceptApplication (applicationId : Nat) (clientId : String)
  | rejectApplication (applicationId : Nat) (clientId : String)
  | submitReview (gigRefId reviewerId : String) (rating : Int) (comment : Option String)
  | recordProfileCreation (profileData : Option ProfileMsg)
  | postGigMessage (gigRefId message senderId : String)

/-- The store transition of one operation (the handler's response is
dropped; every error branch leaves the store unchanged). -/
def step (db : Db) : Op → Db
  | .sync inp => syncFromMirrorNode inp db
  | .recordGigCreation gigData => (recordGigCreation db gigData).2
  | .recordAssignment gigRefId f => (recordAssignment db gigRefId f).2
  | .recordReleaseEscrow gigRefId => (recordReleaseEscrow db gigRefId).2
  | .applyToGig g f c p => (applyToGig db g f c p).2
  | .acceptApplication a c => (acceptApplication db a c).2
  | .rejectApplication a c => (rejectApplication db a c).2
  | .submitReview g r ra co => (submitReview db g r ra co).2
  | .recordProfileCreation p => (recordProfileCreation db p).2
  | .postGigMessage g m s => (postGigMessage db g m s).2

/-- Running a sequence of operations from a starting store. -/
def run (db : Db) (ops : List Op) : Db :=
  ops.foldl step db

/-- The compound indexes declared with `unique: true` on the application
schema (src/db/connection.js line 281:
`applicationSchema.index({ gigRefId: 1, freelancerId: 1 },
{ unique: true })`). -/
def applicationSchemaUniqueIndexes : List (List String) :=
  [["gigRefId", "freelancerId"]]

/-- The compound indexes declared with `unique: true` on the review
schema (src/db/connection.js line 352:
`reviewSchema.index({ gigRefId: 1, reviewerId: 1 }, { unique: true })`). -/
def reviewSchemaUniqueIndexes : List (List String) :=
  [["gigRefId", "reviewerId"]]

/-- What one mirror-node transaction lookup can come back with, as
branched on by `getEntityIdFromTransaction`
(src/utils/solidityCompiler.js lines 28-42): a 200 whose first
transaction has an `entity_id`, a 200 without one (the handler throws a
local error whose `error.response` is undefined, so the catch re-throws),
an HTTP 404, or any other error. -/
inductive MirrorResp where
  | found (entityId : String)
  | noEntity
  | http404
  | otherError
  deriving DecidableEq

/-- `setTimeout(resolve, 2000)` — the fixed wait after a 404. -/
def POLL_INTERVAL_MS : Nat := 2000

/-- `for (let i = 0; i < 5; i++)` — the fixed attempt budget. -/
def MAX_POLL_ATTEMPTS : Nat := 5

/-- How a `getEntityIdFromTransaction` call terminates, together with how
many attempts it consumed and how many milliseconds it spent sleeping. -/
inductive ResolveResult where
  | success (entityId : String) (attemptsUsed waitedMs : Nat)
  | failedNoEntity (attemptsUsed waitedMs : Nat)
  | failedOther (attemptsUsed waitedMs : Nat)
  | timedOut (waitedMs : Nat)
  deriving DecidableEq

/-- The polling loop of `getEntityIdFromTransaction`
(src/utils/solidityCompiler.js lines 28-43): on a response with an
`entity_id` return it; on a 200 without one throw (caught and re-thrown —
an immediate failure); on a 404 sleep 2000 ms and try again; on any other
error re-throw immediately; when the budget runs out throw the timeout
error.  `responses idx` is the indexer's answer to poll number `idx`. -/
def pollMirror (responses : Nat → MirrorResp) : Nat → Nat → Nat → ResolveResult
  | 0, _, waited => ResolveResult.timedOut waited
  | fuel + 1, idx, waited =>
    match responses idx with
    | MirrorResp.found e => ResolveResult.success e (idx + 1) waited
    | MirrorResp.noEntity => ResolveResult.failedNoEntity (idx + 1) waited
    | MirrorResp.otherError => ResolveResult.failedOther (idx + 1) waited
    | MirrorResp.http404 => pollMirror responses fuel (idx + 1) (waited + POLL_INTERVAL_MS)

/-- `getEntityIdFromTransaction`, run against a given stream of indexer
answers (the transaction-id normalization is string formatting that does
not affect the polling behaviour and is not modelled). -/
def getEntityIdFromTransaction (responses : Nat → MirrorResp) : ResolveResult :=
  pollMirror responses MAX_POLL_ATTEMPTS 0 0

/-- The `GIG_UPDATE` events the backend itself prepares for the gig topic
(`updateGigData` in prepare-assignment, src/routes/gigs.js line 91)
always carry `status: 'IN_PROGRESS'`. -/
def systemPreparedGigMsg (m : GigMsg) : Prop :=
  m.type = "GIG_UPDATE" → m.status = some "IN_PROGRESS"

/-- An operation whose replayed gig events are all system-prepared. -/
def wfOp : Op → Prop
  | Op.sync inp => ∀ page ∈ inp.gigPages, ∀ m ∈ page, systemPreparedGigMsg m
  | _ => True

/-- The direction of the spec invariant that the code maintains: a
materialized gig in status `OPEN` has no assigned freelancer and no
escrow contract linked. -/
def mapOpenUnlinked (m : StoreMap GigRecord) : Prop :=
  ∀ k r, m k = some r → r.status = "OPEN" →
    r.assignedFreelancerId = none ∧ r.escrowContractId = none

/-- The same invariant on the whole store. -/
def openImpliesUnlinked (db : Db) : Prop :=
  mapOpenUnlinked db.gigs

/-- How many applications the store holds for a (gig, freelancer) pair. -/
def pairCount (db : Db) (gigRefId freelancerId : String) : Nat :=
  (db.applications.filter (fun a => a.gigRefId == gigRefId && a.freelancerId == freelancerId)).length

/-- Fixture: an `IN_PROGRESS` gig with an assigned freelancer. -/
def gigAssigned : GigRecord :=
  { type := "GIG_UPDATE", gigRefId := "g3", clientId := some "0.0.1003",
    title := some "api build", budget := some "70 HBAR", status := "IN_PROGRESS",
    visibility := "PUBLIC", escrowContractId := none,
    assignedFreelancerId := some "0.0.777" }

/-- Fixture: a store holding just `gigAssigned`. -/
def dbAssigned : Db :=
  { gigs := StoreMap.set StoreMap.empty "g3" gigAssigned
    profiles := StoreMap.empty
    messages := []
    xp := fun _ => 0
    applications := []
    reviews := []
    nextAppId := 0 }

/-- Fixture: an `OPEN` public gig owned by client 0.0.2000. -/
def gigOpenPublic : GigRecord :=
  { type := "GIG_CREATE", gigRefId := "g4", clientId := some "0.0.2000",
    title := some "app build", budget := some "90 HBAR", status := "OPEN",
    visibility := "PUBLIC", escrowContractId := none, assignedFreelancerId := none }

/-- Fixture: three `PENDING` applications for `gigOpenPublic` from
distinct freelancers. -/
def appA1 : AppRecord :=
  { appId := 0, gigRefId := "g4", freelancerId := "0.0.2001",
    coverLetter := "pick me", proposedRate := some "80 HBAR", status := "PENDING" }

def appA2 : AppRecord :=
  { appId := 1, gigRefId := "g4", freelancerId := "0.0.2002",
    coverLetter := "no, me", proposedRate := none, status := "PENDING" }

def appA3 : AppRecord :=
  { appId := 2, gigRefId := "g4", freelancerId := "0.0.2003",
    coverLetter := "me instead", proposedRate := none, status := "PENDING" }

/-- Fixture: `gigOpenPublic` with the three pending applications. -/
def dbApps : Db :=
  { gigs := StoreMap.set StoreMap.empty "g4" gigOpenPublic
    profiles := StoreMap.empty
    messages := []
    xp := fun _ => 0
    applications := [appA1, appA2, appA3]
    reviews := []
    nextAppId := 3 }

/-- Fixture: `gigOpenPublic` with no applications yet. -/
def dbOpenGig : Db :=
  { gigs := StoreMap.set StoreMap.empty "g4" gigOpenPublic
    profiles := StoreMap.empty
    messages := []
    xp := fun _ => 0
    applications := []
    reviews := []
    nextAppId := 0 }

/-- Fixture: a `COMPLETED` gig with client 0.0.3000 and assigned
freelancer 0.0.3001. -/
def gigCompleted : GigRecord :=
  { type := "GIG_UPDATE", gigRefId := "g6", clientId := some "0.0.3000",
    title := some "audit", budget := some "120 HBAR", status := "COMPLETED",
    visibility := "PUBLIC", escrowContractId := some "0.0.555",
    assignedFreelancerId := some "0.0.3001" }

/-- Fixture: `gigCompleted` with no reviews yet. -/
def dbCompleted : Db :=
  { gigs := StoreMap.set StoreMap.empty "g6" gigCompleted
    profiles := StoreMap.empty
    messages := []
    xp := fun _ => 0
    applications := []
    reviews := []
    nextAppId := 0 }

/-! ## Theorems -/

theorem bulkUpsert_self_idem {α : Type} (f g : StoreMap α) :
    bulkUpsert f (bulkUpsert f g) = bulkUpsert f g := by
  funext k
  unfold bulkUpsert
  cases f k <;> rfl

/-- C10: `record-creation` always leaves the stored gig for
`gigData.gigRefId` with a null `escrowContractId` and a null
`assignedFreelancerId`, whatever the store held before — so re-recording
creation over an already-assigned gig silently clears its assignment and
escrow linkage through the upsert. -/
theorem claim_C10 (db : Db) (gigData : GigMsg) :
    ∃ r : GigRecord,
      ((recordGigCreation db gigData).2).gigs gigData.gigRefId = some r ∧
      r.escrowContractId = none ∧ r.assignedFreelancerId = none := by
  refine ⟨recordGigCreationDoc db gigData, ?_, rfl, rfl⟩
  simp [recordGigCreation, StoreMap.set]

/-- C4: the gig-channel reducer seeds a `GIG_CREATE` with status `OPEN`,
null escrow and assignment links, the payload fields of the event, and
visibility defaulting to `PUBLIC` when the event lacks one; a
`GIG_UPDATE` over a seen gig is a field-level shallow merge (a field
present in the event overwrites, an absent field keeps the stored value)
touching no other key; and a `GIG_UPDATE` whose `gigRefId` was never
seeded is a no-op that creates no phantom record. -/
theorem claim_C4 (m : StoreMap GigRecord) (msg : GigMsg) :
    (msg.type = "GIG_CREATE" →
      ∃ r : GigRecord,
        gigsProcessorStep m msg msg.gigRefId = some r ∧
        r.status = "OPEN" ∧ r.escrowContractId = none ∧ r.assignedFreelancerId = none ∧
        (msg.visibility = none → r.visibility = "PUBLIC") ∧
        r.clientId = msg.clientId ∧ r.title = msg.title ∧ r.budget = msg.budget) ∧
    (msg.type = "GIG_UPDATE" →
      ∀ existing : GigRecord, m msg.gigRefId = some existing →
        ∃ r : GigRecord,
          gigsProcessorStep m msg msg.gigRefId = some r ∧
          r.status = (msg.status).getD existing.status ∧
          r.visibility = (msg.visibility).getD existing.visibility ∧
          r.clientId = (msg.clientId).orElse (fun _ => existing.clientId) ∧
          r.title = (msg.title).orElse (fun _ => existing.title) ∧
          r.budget = (msg.budget).orElse (fun _ => existing.budget) ∧
          r.escrowContractId = (msg.escrowContractId).orElse (fun _ => existing.escrowContractId) ∧
          r.assignedFreelancerId =
            (msg.assignedFreelancerId).orElse (fun _ => existing.assignedFreelancerId) ∧
          (∀ k, k ≠ msg.gigRefId → gigsProcessorStep m msg k = m k)) ∧
    (msg.type = "GIG_UPDATE" → m msg.gigRefId = none →
      gigsProcessorStep m msg = m) := by
  refine ⟨?_, ?_, ?_⟩
  · intro h
    refine ⟨seedGigFromCreate msg, ?_, rfl, rfl, rfl, ?_, rfl, rfl, rfl⟩
    · simp [gigsProcessorStep, h, StoreMap.set]
    · intro hv
      simp [seedGigFromCreate, jsOrPublic, hv]
  · intro h existing hex
    have hne : msg.type ≠ "GIG_CREATE" := by simp [h]
    refine ⟨mergeGigUpdate existing msg, ?_, rfl, rfl, rfl, rfl, rfl, rfl, rfl, ?_⟩
    · simp [gigsProcessorStep, hne, h, hex, StoreMap.set]
    · intro k hk
      simp [gigsProcessorStep, hne, h, hex, StoreMap.set, hk]
  · intro h hnone
    have hne : msg.type ≠ "GIG_CREATE" := by simp [h]
    simp [gigsProcessorStep, hne, h, hnone]

/-- C4 witness: the three parts of the reducer theorem instantiated on a
concrete map and concrete events. -/
theorem claim_C4_witness :
    (({ type := "GIG_CREATE", gigRefId := "g1", clientId := some "0.0.1001",
        title := some "build a dapp", budget := some "100 HBAR" } : GigMsg).type = "GIG_CREATE" ∧
      ∃ r : GigRecord,
        gigsProcessorStep StoreMap.empty
          { type := "GIG_CREATE", gigRefId := "g1", clientId := some "0.0.1001",
            title := some "build a dapp", budget := some "100 HBAR" } "g1" = some r ∧
        r.status = "OPEN" ∧ r.escrowContractId = none ∧ r.assignedFreelancerId = none ∧
        r.visibility = "PUBLIC") ∧
    (gigsProcessorStep StoreMap.empty
        { type := "GIG_UPDATE", gigRefId := "g1", status := some "IN_PROGRESS" } =
      StoreMap.empty) := by
  constructor
  · refine ⟨rfl, ?_⟩
    obtain ⟨r, hr, h1, h2, h3, h4, -⟩ :=
      (claim_C4 StoreMap.empty
        { type := "GIG_CREATE", gigRefId := "g1", clientId := some "0.0.1001",
          title := some "build a dapp", budget := some "100 HBAR" }).1 rfl
    exact ⟨r, hr, h1, h2, h3, h4 rfl⟩
  · exact (claim_C4 StoreMap.empty
      { type := "GIG_UPDATE", gigRefId := "g1", status := some "IN_PROGRESS" }).2.2 rfl rfl

/-- C5: one `syncFromMirrorNode` run is idempotent — replaying the same
fetched log again yields a store identical to the single replay: the
bulk upserts re-write the same gig and profile documents and the message
channel is delete-then-inserted to the same list, so nothing is
duplicated or double-counted. -/
theorem claim_C5 (inp : SyncInput) (db : Db) :
    syncFromMirrorNode inp (syncFromMirrorNode inp db) = syncFromMirrorNode inp db := by
  exact Db.ext (bulkUpsert_self_idem _ _) (bulkUpsert_self_idem _ _) rfl rfl rfl rfl rfl

theorem pollMirror_skip_http404 (responses : Nat → MirrorResp) (n : Nat) :
    ∀ fuel idx waited, (∀ j, j < n → responses (idx + j) = MirrorResp.http404) →
      pollMirror responses (fuel + n) idx waited =
        pollMirror responses fuel (idx + n) (waited + POLL_INTERVAL_MS * n) := by
  induction n with
  | zero => intro fuel idx waited _; simp
  | succ k ih =>
    intro fuel idx waited h
    have h0 : responses idx = MirrorResp.http404 := by
      have := h 0 (Nat.succ_pos k); simpa using this
    have hstep :
        pollMirror responses (fuel + (k + 1)) idx waited =
          pollMirror responses (fuel + k) (idx + 1) (waited + POLL_INTERVAL_MS) := by
      show pollMirror responses ((fuel + k) + 1) idx waited = _
      simp [pollMirror, h0]
    rw [hstep, ih fuel (idx + 1) (waited + POLL_INTERVAL_MS)
      (fun j hj => by have := h (j + 1) (by omega); simpa [Nat.add_assoc, Nat.add_comm 1 j] using this)]
    have e1 : idx + 1 + k = idx + (k + 1) := by omega
    have e2 : waited + POLL_INTERVAL_MS + POLL_INTERVAL_MS * k =
        waited + POLL_INTERVAL_MS * (k + 1) := by ring
    rw [e1, e2]

/-- C2: the confirmation resolver polls at a fixed 2000 ms interval with
an attempt budget of 5: while the indexer answers 404 it sleeps and
retries; a response carrying the `entity_id` succeeds after those waits;
a response lacking the `entity_id` fails right there, before the budget
is spent; any non-404 error also stops it immediately; and five
unsuccessful attempts end in the timeout failure (after 5 × 2000 ms of
waiting) instead of looping on. -/
theorem claim_C2 :
    (∀ (responses : Nat → MirrorResp) (i : Nat) (e : String),
        i < MAX_POLL_ATTEMPTS → (∀ j, j < i → responses j = MirrorResp.http404) →
        responses i = MirrorResp.found e →
        getEntityIdFromTransaction responses =
          ResolveResult.success e (i + 1) (POLL_INTERVAL_MS * i)) ∧
    (∀ (responses : Nat → MirrorResp) (i : Nat),
        i < MAX_POLL_ATTEMPTS → (∀ j, j < i → responses j = MirrorResp.http404) →
        responses i = MirrorResp.noEntity →
        getEntityIdFromTransaction responses =
          ResolveResult.failedNoEntity (i + 1) (POLL_INTERVAL_MS * i)) ∧
    (∀ (responses : Nat → MirrorResp) (i : Nat),
        i < MAX_POLL_ATTEMPTS → (∀ j, j < i → responses j = MirrorResp.http404) →
        responses i = MirrorResp.otherError →
        getEntityIdFromTransaction responses =
          ResolveResult.failedOther (i + 1) (POLL_INTERVAL_MS * i)) ∧
    (∀ responses : Nat → MirrorResp,
        (∀ j, j < MAX_POLL_ATTEMPTS → responses j = MirrorResp.http404) →
        getEntityIdFromTransaction responses =
          ResolveResult.timedOut (POLL_INTERVAL_MS * MAX_POLL_ATTEMPTS)) := by
  have skip : ∀ (responses : Nat → MirrorResp) (i : Nat), i < MAX_POLL_ATTEMPTS →
      (∀ j, j < i → responses j = MirrorResp.http404) →
      ∃ m, MAX_POLL_ATTEMPTS - i = m + 1 ∧
        getEntityIdFromTransaction responses =
          pollMirror responses (m + 1) i (POLL_INTERVAL_MS * i) := by
    intro responses i hi hj
    refine ⟨MAX_POLL_ATTEMPTS - i - 1, by omega, ?_⟩
    have hsplit : MAX_POLL_ATTEMPTS = (MAX_POLL_ATTEMPTS - i - 1 + 1) + i := by omega
    calc getEntityIdFromTransaction responses
        = pollMirror responses ((MAX_POLL_ATTEMPTS - i - 1 + 1) + i) 0 0 := by
          rw [getEntityIdFromTransaction, ← hsplit]
      _ = pollMirror responses (MAX_POLL_ATTEMPTS - i - 1 + 1) (0 + i)
            (0 + POLL_INTERVAL_MS * i) := by
          exact pollMirror_skip_http404 responses i _ 0 0 (by simpa using hj)
      _ = pollMirror responses (MAX_POLL_ATTEMPTS - i - 1 + 1) i (POLL_INTERVAL_MS * i) := by
          rw [Nat.zero_add, Nat.zero_add]
  refine ⟨?_, ?_, ?_, ?_⟩
  · intro responses i e hi hj hfound
    obtain ⟨m, -, hrun⟩ := skip responses i hi hj
    rw [hrun]; simp [pollMirror, hfound]
  · intro responses i hi hj hmiss
    obtain ⟨m, -, hrun⟩ := skip responses i hi hj
    rw [hrun]; simp [pollMirror, hmiss]
  · intro responses i hi hj herr
    obtain ⟨m, -, hrun⟩ := skip responses i hi hj
    rw [hrun]; simp [pollMirror, herr]
  · intro responses hall
    have := pollMirror_skip_http404 responses MAX_POLL_ATTEMPTS 0 0 0 (by simpa using hall)
    calc getEntityIdFromTransaction responses
        = pollMirror responses (0 + MAX_POLL_ATTEMPTS) 0 0 := by
          rw [getEntityIdFromTransaction, Nat.zero_add]
      _ = pollMirror responses 0 (0 + MAX_POLL_ATTEMPTS) (0 + POLL_INTERVAL_MS * MAX_POLL_ATTEMPTS) :=
          this
      _ = ResolveResult.timedOut (POLL_INTERVAL_MS * MAX_POLL_ATTEMPTS) := by
          rw [Nat.zero_add]; rfl

/-- C2 witness: a stream that answers 404 twice and then exposes the
entity id succeeds on the third attempt after two 2000 ms waits, and the
all-404 stream times out after five attempts and 10000 ms of waiting. -/
theorem claim_C2_witness :
    ((2 < MAX_POLL_ATTEMPTS ∧
      (∀ j, j < 2 →
        (fun n => if n < 2 then MirrorResp.http404 else MirrorResp.found "0.0.555") j =
          MirrorResp.http404) ∧
      (fun n => if n < 2 then MirrorResp.http404 else MirrorResp.found "0.0.555") 2 =
        MirrorResp.found "0.0.555") ∧
      getEntityIdFromTransaction
          (fun n => if n < 2 then MirrorResp.http404 else MirrorResp.found "0.0.555") =
        ResolveResult.success "0.0.555" 3 4000) ∧
    getEntityIdFromTransaction (fun _ => MirrorResp.http404) =
      ResolveResult.timedOut 10000 := by
  refine ⟨⟨⟨by decide, by decide, by decide⟩, ?_⟩, ?_⟩
  · exact claim_C2.1 (fun n => if n < 2 then MirrorResp.http404 else MirrorResp.found "0.0.555")
      2 "0.0.555" (by decide) (by decide) (by decide)
  · exact claim_C2.2.2.2 (fun _ => MirrorResp.http404) (fun _ _ => rfl)

/-- C1 counterexample: a message-channel replay whose second page fetch
fails does NOT abort without commit — the run still executes
`deleteMany({})` followed by `insertMany` of the truncated fold, so the
two messages committed by the prior successful run are replaced by the
one message of the fetched page: prior-run state is touched and a
partial fold result (a delete-then-insert of a truncated message set) is
written. -/
theorem claim_C1_counterexample :
    (syncFromMirrorNode
        { gigPages := [], gigFailAt := none, profilePages := [], profileFailAt := none,
          messagePages :=
            [[{ type := "GIG_MESSAGE", gigRefId := some "g1", senderId := some "0.0.1001",
                content := some "hello" }],
             [{ type := "GIG_MESSAGE", gigRefId := some "g1", senderId := some "0.0.1002",
                content := some "world" }]]
          messageFailAt := none } emptyDb).messages =
      [{ type := "GIG_MESSAGE", gigRefId := some "g1", senderId := some "0.0.1001",
         content := some "hello" },
       { type := "GIG_MESSAGE", gigRefId := some "g1", senderId := some "0.0.1002",
         content := some "world" }] ∧
    (syncFromMirrorNode
        { gigPages := [], gigFailAt := none, profilePages := [], profileFailAt := none,
          messagePages :=
            [[{ type := "GIG_MESSAGE", gigRefId := some "g1", senderId := some "0.0.1001",
                content := some "hello" }],
             [{ type := "GIG_MESSAGE", gigRefId := some "g1", senderId := some "0.0.1002",
                content := some "world" }]]
          messageFailAt := some 1 }
        (syncFromMirrorNode
          { gigPages := [], gigFailAt := none, profilePages := [], profileFailAt := none,
            messagePages :=
              [[{ type := "GIG_MESSAGE", gigRefId := some "g1", senderId := some "0.0.1001",
                  content := some "hello" }],
               [{ type := "GIG_MESSAGE", gigRefId := some "g1", senderId := some "0.0.1002",
                  content := some "world" }]]
            messageFailAt := none } emptyDb)).messages =
      [{ type := "GIG_MESSAGE", gigRefId := some "g1", senderId := some "0.0.1001",
         content := some "hello" }] ∧
    ([({ type := "GIG_MESSAGE", gigRefId := some "g1", senderId := some "0.0.1001",
         content := some "hello" } : ChatMsg)] ≠
      [({ type := "GIG_MESSAGE", gigRefId := some "g1", senderId := some "0.0.1001",
          content := some "hello" } : ChatMsg),
       { type := "GIG_MESSAGE", gigRefId := some "g1", senderId := some "0.0.1002",
         content := some "world" }]) := by
  refine ⟨rfl, rfl, by decide⟩

/-- C1 (amended): a page fetch failing mid-pagination stops the fetch
loop for that channel (the error is caught, logged and `break`s the
loop), but the run then commits the state folded from the pages fetched
so far exactly as a successful replay of the truncated page list would:
gigs and profiles are bulk-upserted from the partial fold, and the
message store is deleted and re-inserted from the truncated message set,
overwriting prior-run state for those keys.  The next run re-derives
from scratch. -/
theorem claim_C1_amended (inp : SyncInput) (db : Db) (i j k : Nat)
    (hg : inp.gigFailAt = some i) (hp : inp.profileFailAt = some j)
    (hm : inp.messageFailAt = some k) :
    syncFromMirrorNode inp db =
      syncFromMirrorNode
        { gigPages := inp.gigPages.take i, gigFailAt := none,
          profilePages := inp.profilePages.take j, profileFailAt := none,
          messagePages := inp.messagePages.take k, messageFailAt := none } db := by
  simp [syncFromMirrorNode, fetchAndProcessTopicMessages, hg, hp, hm]

/-- C1 witness: the amended theorem applied to the concrete failing run
of the counterexample. -/
theorem claim_C1_witness :
    syncFromMirrorNode
        { gigPages := [], gigFailAt := some 0, profilePages := [], profileFailAt := some 0,
          messagePages :=
            [[{ type := "GIG_MESSAGE", gigRefId := some "g1", senderId := some "0.0.1001",
                content := some "hello" }],
             [{ type := "GIG_MESSAGE", gigRefId := some "g1", senderId := some "0.0.1002",
                content := some "world" }]]
          messageFailAt := some 1 } emptyDb =
      syncFromMirrorNode
        { gigPages := [], gigFailAt := none, profilePages := [], profileFailAt := none,
          messagePages :=
            [[{ type := "GIG_MESSAGE", gigRefId := some "g1", senderId := some "0.0.1001",
                content := some "hello" }]]
          messageFailAt := none } emptyDb := by
  exact claim_C1_amended
    { gigPages := [], gigFailAt := some 0, profilePages := [], profileFailAt := some 0,
      messagePages :=
        [[{ type := "GIG_MESSAGE", gigRefId := some "g1", senderId := some "0.0.1001",
            content := some "hello" }],
         [{ type := "GIG_MESSAGE", gigRefId := some "g1", senderId := some "0.0.1002",
            content := some "world" }]]
      messageFailAt := some 1 } emptyDb 0 0 1 rfl rfl rfl

theorem applyToGig_frame (db : Db) (g f c : String) (p : Option String) :
    ((applyToGig db g f c p).2).gigs = db.gigs ∧ ((applyToGig db g f c p).2).xp = db.xp := by
  unfold applyToGig
  repeat' split
  all_goals exact ⟨rfl, rfl⟩

theorem acceptApplication_frame (db : Db) (a : Nat) (c : String) :
    ((acceptApplication db a c).2).gigs = db.gigs ∧ ((acceptApplication db a c).2).xp = db.xp := by
  unfold acceptApplication
  repeat' split
  all_goals exact ⟨rfl, rfl⟩

theorem rejectApplication_frame (db : Db) (a : Nat) (c : String) :
    ((rejectApplication db a c).2).gigs = db.gigs ∧ ((rejectApplication db a c).2).xp = db.xp := by
  unfold rejectApplication
  repeat' split
  all_goals exact ⟨rfl, rfl⟩

theorem submitReview_frame (db : Db) (g r : String) (ra : Int) (co : Option String) :
    ((submitReview db g r ra co).2).gigs = db.gigs ∧ ((submitReview db g r ra co).2).xp = db.xp := by
  unfold submitReview submitReviewCreate
  repeat' split
  all_goals exact ⟨rfl, rfl⟩

theorem recordProfileCreation_frame (db : Db) (p : Option ProfileMsg) :
    ((recordProfileCreation db p).2).gigs = db.gigs ∧
    ((recordProfileCreation db p).2).xp = db.xp := by
  unfold recordProfileCreation
  repeat' split
  all_goals exact ⟨rfl, rfl⟩

theorem postGigMessage_frame (db : Db) (g m s : String) :
    ((postGigMessage db g m s).2).gigs = db.gigs ∧ ((postGigMessage db g m s).2).xp = db.xp := by
  unfold postGigMessage
  repeat' split
  all_goals exact ⟨rfl, rfl⟩

theorem recordAssignment_xp_eq (db : Db) (g : String) (f : Option String) :
    ((recordAssignment db g f).2).xp = db.xp := by
  unfold recordAssignment
  split <;> rfl

theorem mem_fetchAndProcess {α : Type} (pages : List (List α)) (failAt : Option Nat) (x : α)
    (hx : x ∈ fetchAndProcessTopicMessages pages failAt) : ∃ p ∈ pages, x ∈ p := by
  unfold fetchAndProcessTopicMessages at hx
  cases failAt with
  | none => exact List.mem_flatten.mp hx
  | some i =>
    obtain ⟨l, hl, hxl⟩ := List.mem_flatten.mp hx
    exact ⟨l, List.take_subset i pages hl, hxl⟩

theorem gigsProcessorStep_openUnlinked (m : StoreMap GigRecord) (msg : GigMsg)
    (hm : mapOpenUnlinked m) (hmsg : systemPreparedGigMsg msg) :
    mapOpenUnlinked (gigsProcessorStep m msg) := by
  intro k r hk hopen
  unfold gigsProcessorStep at hk
  by_cases hc : msg.type = "GIG_CREATE"
  · rw [if_pos hc] at hk
    unfold StoreMap.set at hk
    by_cases hkk : k = msg.gigRefId
    · rw [if_pos hkk] at hk
      obtain rfl := Option.some.inj hk |>.symm
      exact ⟨rfl, rfl⟩
    · rw [if_neg hkk] at hk
      exact hm k r hk hopen
  · rw [if_neg hc] at hk
    by_cases hu : msg.type = "GIG_UPDATE"
    · rw [if_pos hu] at hk
      cases hex : m msg.gigRefId with
      | none =>
        rw [hex] at hk
        exact hm k r hk hopen
      | some existing =>
        rw [hex] at hk
        have hk2 : StoreMap.set m msg.gigRefId (mergeGigUpdate existing msg) k = some r := hk
        unfold StoreMap.set at hk2
        by_cases hkk : k = msg.gigRefId
        · rw [if_pos hkk] at hk2
          have hvr : mergeGigUpdate existing msg = r := Option.some.inj hk2
          rw [← hvr] at hopen
          have hst : (mergeGigUpdate existing msg).status = "IN_PROGRESS" := by
            simp [mergeGigUpdate, hmsg hu]
          rw [hst] at hopen
          exact absurd hopen (by decide)
        · rw [if_neg hkk] at hk2
          exact hm k r hk2 hopen
    · rw [if_neg hu] at hk
      exact hm k r hk hopen

theorem gigsFold_aux_openUnlinked (log : List GigMsg) :
    (∀ m ∈ log, systemPreparedGigMsg m) → ∀ init : StoreMap GigRecord, mapOpenUnlinked init →
      mapOpenUnlinked (log.foldl gigsProcessorStep init) := by
  induction log with
  | nil => intro _ init hi; exact hi
  | cons a l ih =>
    intro h init hi
    exact ih (fun m hm => h m (List.mem_cons_of_mem a hm)) _
      (gigsProcessorStep_openUnlinked init a hi (h a (List.mem_cons_self a l)))

theorem gigsFold_openUnlinked (log : List GigMsg) (h : ∀ m ∈ log, systemPreparedGigMsg m) :
    mapOpenUnlinked (gigsFold log) :=
  gigsFold_aux_openUnlinked log h StoreMap.empty
    (fun k r hk => by simp [StoreMap.empty] at hk)

theorem bulkUpsert_openUnlinked (f g : StoreMap GigRecord)
    (hf : mapOpenUnlinked f) (hg : mapOpenUnlinked g) :
    mapOpenUnlinked (bulkUpsert f g) := by
  intro k r hk hopen
  unfold bulkUpsert at hk
  cases hfk : f k with
  | some v =>
    rw [hfk] at hk
    have hk2 : some v = some r := hk
    have hvr : v = r := Option.some.inj hk2
    rw [hvr] at hfk
    exact hf k r hfk hopen
  | none =>
    rw [hfk] at hk
    exact hg k r hk hopen

theorem recordReleaseEscrow_gigs (db : Db) (g : String) :
    ((recordReleaseEscrow db g).2).gigs =
      match db.gigs g with
      | none => db.gigs
      | some gig => db.gigs.set g { gig with status := "COMPLETED" } := by
  unfold recordReleaseEscrow
  split
  · rfl
  · split <;> rfl

theorem step_openImpliesUnlinked (db : Db) (op : Op)
    (hdb : openImpliesUnlinked db) (hop : wfOp op) :
    openImpliesUnlinked (step db op) := by
  cases op with
  | sync inp =>
    refine bulkUpsert_openUnlinked _ _ ?_ hdb
    refine gigsFold_openUnlinked _ ?_
    intro m hm
    obtain ⟨p, hp, hmp⟩ := mem_fetchAndProcess _ _ _ hm
    exact hop p hp m hmp
  | recordGigCreation gigData =>
    intro k r hk hopen
    have hk' : StoreMap.set db.gigs gigData.gigRefId (recordGigCreationDoc db gigData) k =
        some r := hk
    unfold StoreMap.set at hk'
    by_cases hkk : k = gigData.gigRefId
    · rw [if_pos hkk] at hk'
      obtain rfl := Option.some.inj hk' |>.symm
      exact ⟨rfl, rfl⟩
    · rw [if_neg hkk] at hk'
      exact hdb k r hk' hopen
  | recordAssignment g f =>
    intro k r hk hopen
    have hk1 : ((recordAssignment db g f).2).gigs k = some r := hk
    rw [recordAssignment] at hk1
    cases hex : db.gigs g with
    | none =>
      rw [hex] at hk1
      exact hdb k r hk1 hopen
    | some gig =>
      rw [hex] at hk1
      have hk2 : StoreMap.set db.gigs g _ k = some r := hk1
      unfold StoreMap.set at hk2
      by_cases hkk : k = g
      · rw [if_pos hkk] at hk2
        have hvr := Option.some.inj hk2
        rw [← hvr] at hopen
        simp at hopen
      · rw [if_neg hkk] at hk2
        exact hdb k r hk2 hopen
  | recordReleaseEscrow g =>
    intro k r hk hopen
    have hk1 : ((recordReleaseEscrow db g).2).gigs k = some r := hk
    rw [recordReleaseEscrow_gigs] at hk1
    cases hex : db.gigs g with
    | none =>
      rw [hex] at hk1
      exact hdb k r hk1 hopen
    | some gig =>
      rw [hex] at hk1
      have hk2 : StoreMap.set db.gigs g { gig with status := "COMPLETED" } k = some r := hk1
      unfold StoreMap.set at hk2
      by_cases hkk : k = g
      · rw [if_pos hkk] at hk2
        have hvr := Option.some.inj hk2
        rw [← hvr] at hopen
        simp at hopen
      · rw [if_neg hkk] at hk2
        exact hdb k r hk2 hopen
  | applyToGig g f c p =>
    show mapOpenUnlinked ((applyToGig db g f c p).2).gigs
    rw [(applyToGig_frame db g f c p).1]
    exact hdb
  | acceptApplication a c =>
    show mapOpenUnlinked ((acceptApplication db a c).2).gigs
    rw [(acceptApplication_frame db a c).1]
    exact hdb
  | rejectApplication a c =>
    show mapOpenUnlinked ((rejectApplication db a c).2).gigs
    rw [(rejectApplication_frame db a c).1]
    exact hdb
  | submitReview g rr ra co =>
    show mapOpenUnlinked ((submitReview db g rr ra co).2).gigs
    rw [(submitReview_frame db g rr ra co).1]
    exact hdb
  | recordProfileCreation p =>
    show mapOpenUnlinked ((recordProfileCreation db p).2).gigs
    rw [(recordProfileCreation_frame db p).1]
    exact hdb
  | postGigMessage g m s =>
    show mapOpenUnlinked ((postGigMessage db g m s).2).gigs
    rw [(postGigMessage_frame db g m s).1]
    exact hdb

theorem run_openImpliesUnlinked (ops : List Op) :
    (∀ op ∈ ops, wfOp op) → ∀ db : Db, openImpliesUnlinked db →
      openImpliesUnlinked (run db ops) := by
  induction ops with
  | nil => intro _ db hdb; exact hdb
  | cons a l ih =>
    intro h db hdb
    exact ih (fun op hop => h op (List.mem_cons_of_mem a hop)) _
      (step_openImpliesUnlinked db a hdb (h a (List.mem_cons_self a l)))

/-- C3 counterexample: the biconditional invariant fails on a state
reachable by the listed operations alone — record a gig creation (status
`OPEN`, both link fields null) and then hit `record-release-escrow` on
it: the handler has no status or assignment precondition, so the stored
gig ends with status `COMPLETED` while `assignedFreelancerId` and
`escrowContractId` are still both null, violating "both null iff status
is OPEN". -/
theorem claim_C3_counterexample :
    (run emptyDb
        [Op.recordGigCreation
          { type := "GIG_CREATE", gigRefId := "g1", clientId := some "0.0.1001",
            title := some "logo design", budget := some "100 HBAR",
            status := some "OPEN", visibility := some "PUBLIC" },
         Op.recordReleaseEscrow "g1"]).gigs "g1" =
      some { type := "GIG_CREATE", gigRefId := "g1", clientId := some "0.0.1001",
             title := some "logo design", budget := some "100 HBAR",
             status := "COMPLETED", visibility := "PUBLIC",
             escrowContractId := none, assignedFreelancerId := none } ∧
    wfOp (Op.recordGigCreation
      { type := "GIG_CREATE", gigRefId := "g1", clientId := some "0.0.1001",
        title := some "logo design", budget := some "100 HBAR",
        status := some "OPEN", visibility := some "PUBLIC" }) ∧
    wfOp (Op.recordReleaseEscrow "g1") ∧
    ¬((none = (none : Option String) ∧ none = (none : Option String)) ↔
        ("COMPLETED" : String) = "OPEN") := by
  refine ⟨by decide, trivial, trivial, by decide⟩

/-- C3 (amended): only the forward direction of the invariant holds on
states reachable by the modelled operations (with replayed gig events
system-prepared, i.e. every `GIG_UPDATE` carries `status:
'IN_PROGRESS'`): a stored gig whose status is `OPEN` has both
`assignedFreelancerId` and `escrowContractId` null.  The converse fails
(see the counterexample): `record-release-escrow` can produce a
non-`OPEN` gig with both fields still null. -/
theorem claim_C3_amended (ops : List Op) (hwf : ∀ op ∈ ops, wfOp op) (k : String)
    (r : GigRecord) (hr : (run emptyDb ops).gigs k = some r) (hopen : r.status = "OPEN") :
    r.assignedFreelancerId = none ∧ r.escrowContractId = none := by
  refine run_openImpliesUnlinked ops hwf emptyDb ?_ k r hr hopen
  intro q v hq
  simp [emptyDb, StoreMap.empty] at hq

/-- C3 witness: the amended invariant read off a concrete run — a single
recorded gig creation leaves an `OPEN` gig, and the theorem yields its
null link fields. -/
theorem claim_C3_witness :
    ((∀ op ∈ ([Op.recordGigCreation
        { type := "GIG_CREATE", gigRefId := "g2", clientId := some "0.0.1002",
          title := some "site build", budget := some "50 HBAR",
          status := some "OPEN", visibility := some "PUBLIC" }] : List Op), wfOp op) ∧
      (run emptyDb
          [Op.recordGigCreation
            { type := "GIG_CREATE", gigRefId := "g2", clientId := some "0.0.1002",
              title := some "site build", budget := some "50 HBAR",
              status := some "OPEN", visibility := some "PUBLIC" }]).gigs "g2" =
        some { type := "GIG_CREATE", gigRefId := "g2", clientId := some "0.0.1002",
               title := some "site build", budget := some "50 HBAR",
               status := "OPEN", visibility := "PUBLIC",
               escrowContractId := none, assignedFreelancerId := none } ∧
      ({ type := "GIG_CREATE", gigRefId := "g2", clientId := some "0.0.1002",
         title := some "site build", budget := some "50 HBAR",
         status := "OPEN", visibility := "PUBLIC",
         escrowContractId := none, assignedFreelancerId := none } : GigRecord).status = "OPEN") ∧
    (({ type := "GIG_CREATE", gigRefId := "g2", clientId := some "0.0.1002",
        title := some "site build", budget := some "50 HBAR",
        status := "OPEN", visibility := "PUBLIC",
        escrowContractId := none, assignedFreelancerId := none } : GigRecord).assignedFreelancerId =
          none ∧
      ({ type := "GIG_CREATE", gigRefId := "g2", clientId := some "0.0.1002",
         title := some "site build", budget := some "50 HBAR",
         status := "OPEN", visibility := "PUBLIC",
         escrowContractId := none, assignedFreelancerId := none } : GigRecord).escrowContractId =
          none) := by
  refine ⟨⟨?_, by decide, rfl⟩, ?_⟩
  · intro op hop
    rcases List.mem_singleton.mp hop with rfl
    trivial
  · refine claim_C3_amended
      [Op.recordGigCreation
        { type := "GIG_CREATE", gigRefId := "g2", clientId := some "0.0.1002",
          title := some "site build", budget := some "50 HBAR",
          status := some "OPEN", visibility := some "PUBLIC" }]
      ?_ "g2" _ (by decide) rfl
    intro op hop
    rcases List.mem_singleton.mp hop with rfl
    trivial

theorem recordReleaseEscrow_xp (db : Db) (g : String) :
    ((recordReleaseEscrow db g).2).xp =
      match db.gigs g with
      | none => db.xp
      | some gig =>
        match gig.assignedFreelancerId with
        | some f => fun a => if a = f then db.xp a + 100 else db.xp a
        | none => db.xp := by
  unfold recordReleaseEscrow
  split
  · rfl
  · split <;> rfl

/-- C6: recording escrow release on a gig with an assigned freelancer
sets the gig's status to `COMPLETED` and bumps exactly that freelancer's
XP counter by exactly 100 (every other account's XP is untouched);
across every modelled operation XP never decreases; and no operation
other than `record-release-escrow` modifies XP at all. -/
theorem claim_C6 :
    (∀ (db : Db) (gigRefId : String) (gig : GigRecord) (freelancerId : String),
        db.gigs gigRefId = some gig → gig.assignedFreelancerId = some freelancerId →
        ((recordReleaseEscrow db gigRefId).2).gigs gigRefId =
            some { gig with status := "COMPLETED" } ∧
          ((recordReleaseEscrow db gigRefId).2).xp freelancerId = db.xp freelancerId + 100 ∧
          (∀ a, a ≠ freelancerId → ((recordReleaseEscrow db gigRefId).2).xp a = db.xp a)) ∧
    (∀ (db : Db) (op : Op) (a : String), db.xp a ≤ (step db op).xp a) ∧
    (∀ (db : Db) (op : Op), (∀ g, op ≠ Op.recordReleaseEscrow g) → (step db op).xp = db.xp) := by
  refine ⟨?_, ?_, ?_⟩
  · intro db gigRefId gig freelancerId hgig hf
    refine ⟨?_, ?_, ?_⟩
    · rw [recordReleaseEscrow_gigs, hgig]
      show StoreMap.set db.gigs gigRefId { gig with status := "COMPLETED" } gigRefId =
        some { gig with status := "COMPLETED" }
      unfold StoreMap.set
      rw [if_pos rfl]
    · rw [recordReleaseEscrow_xp, hgig]
      show (match gig.assignedFreelancerId with
            | some f => fun a => if a = f then db.xp a + 100 else db.xp a
            | none => db.xp) freelancerId = db.xp freelancerId + 100
      rw [hf]
      simp
    · intro a ha
      rw [recordReleaseEscrow_xp, hgig]
      show (match gig.assignedFreelancerId with
            | some f => fun a => if a = f then db.xp a + 100 else db.xp a
            | none => db.xp) a = db.xp a
      rw [hf]
      simp [ha]
  · intro db op a
    cases op with
    | sync inp => exact Nat.le_refl _
    | recordGigCreation g => exact Nat.le_refl _
    | recordAssignment g f =>
      have h : ((recordAssignment db g f).2).xp = db.xp := recordAssignment_xp_eq db g f
      show db.xp a ≤ ((recordAssignment db g f).2).xp a
      rw [h]
    | recordReleaseEscrow g =>
      show db.xp a ≤ ((recordReleaseEscrow db g).2).xp a
      rw [recordReleaseEscrow_xp]
      split
      · exact Nat.le_refl _
      · split
        · rename_i f heq
          by_cases hfa : a = f <;> simp [hfa]
        · exact Nat.le_refl _
    | applyToGig g f c p =>
      show db.xp a ≤ ((applyToGig db g f c p).2).xp a
      rw [(applyToGig_frame db g f c p).2]
    | acceptApplication x c =>
      show db.xp a ≤ ((acceptApplication db x c).2).xp a
      rw [(acceptApplication_frame db x c).2]
    | rejectApplication x c =>
      show db.xp a ≤ ((rejectApplication db x c).2).xp a
      rw [(rejectApplication_frame db x c).2]
    | submitReview g rr ra co =>
      show db.xp a ≤ ((submitReview db g rr ra co).2).xp a
      rw [(submitReview_frame db g rr ra co).2]
    | recordProfileCreation p =>
      show db.xp a ≤ ((recordProfileCreation db p).2).xp a
      rw [(recordProfileCreation_frame db p).2]
    | postGigMessage g m s =>
      show db.xp a ≤ ((postGigMessage db g m s).2).xp a
      rw [(postGigMessage_frame db g m s).2]
  · intro db op hop
    cases op with
    | sync inp => rfl
    | recordGigCreation g => rfl
    | recordAssignment g f => exact recordAssignment_xp_eq db g f
    | recordReleaseEscrow g => exact absurd rfl (hop g)
    | applyToGig g f c p => exact (applyToGig_frame db g f c p).2
    | acceptApplication x c => exact (acceptApplication_frame db x c).2
    | rejectApplication x c => exact (rejectApplication_frame db x c).2
    | submitReview g rr ra co => exact (submitReview_frame db g rr ra co).2
    | recordProfileCreation p => exact (recordProfileCreation_frame db p).2
    | postGigMessage g m s => exact (postGigMessage_frame db g m s).2

/-- C6 witness: the release effect on the fixture store (an assigned
`IN_PROGRESS` gig, freelancer 0.0.777 at 0 XP), and the no-other-writer
conjunct at a concrete non-release operation. -/
theorem claim_C6_witness :
    ((dbAssigned.gigs "g3" = some gigAssigned ∧
        gigAssigned.assignedFreelancerId = some "0.0.777") ∧
      ((recordReleaseEscrow dbAssigned "g3").2).gigs "g3" =
          some { gigAssigned with status := "COMPLETED" } ∧
        ((recordReleaseEscrow dbAssigned "g3").2).xp "0.0.777" =
          dbAssigned.xp "0.0.777" + 100 ∧
        (∀ a, a ≠ "0.0.777" →
          ((recordReleaseEscrow dbAssigned "g3").2).xp a = dbAssigned.xp a)) ∧
    dbAssigned.xp "0.0.777" ≤ (step dbAssigned (Op.recordReleaseEscrow "g3")).xp "0.0.777" ∧
    (step dbAssigned (Op.postGigMessage "g3" "done" "0.0.777")).xp = dbAssigned.xp := by
  refine ⟨⟨⟨by decide, by decide⟩, ?_⟩, ?_, ?_⟩
  · exact claim_C6.1 dbAssigned "g3" gigAssigned "0.0.777" (by decide) (by decide)
  · exact claim_C6.2.1 dbAssigned (Op.recordReleaseEscrow "g3") "0.0.777"
  · exact claim_C6.2.2 dbAssigned (Op.postGigMessage "g3" "done" "0.0.777")
      (fun g h => Op.noConfusion h)

theorem acceptApplication_eq (db : Db) (applicationId : Nat) (clientId : String)
    (application : AppRecord) (gig : GigRecord)
    (hfind : db.applications.find? (fun a => a.appId == applicationId) = some application)
    (hgig : db.gigs application.gigRefId = some gig)
    (howner : gig.clientId = some clientId) (hopen : gig.status = "OPEN") :
    acceptApplication db applicationId clientId =
      (ApiResult.ok,
        { db with applications := db.applications.map (fun a =>
            if a.appId = applicationId then { a with status := "ACCEPTED" }
            else if a.gigRefId = application.gigRefId ∧ a.status = "PENDING" then
              { a with status := "REJECTED" }
            else a) }) := by
  unfold acceptApplication
  split
  · rename_i heq
    rw [hfind] at heq
    cases heq
  · rename_i application' heq
    rw [hfind] at heq
    have h1 : application = application' := Option.some.inj heq
    subst h1
    split
    · rename_i heq2
      rw [hgig] at heq2
      cases heq2
    · rename_i gig' heq2
      rw [hgig] at heq2
      have h2 : gig = gig' := Option.some.inj heq2
      subst h2
      rw [if_neg (by simp [howner]), if_neg (by simp [hopen])]

/-- C7: with gig G `OPEN` and owned by the caller, and three `PENDING`
applications A1, A2, A3 for G from distinct freelancers, accepting A1
returns ok and, in the same transition, leaves A1 `ACCEPTED` and every
other `PENDING` application for G (in particular A2 and A3) `REJECTED`. -/
theorem claim_C7 (db : Db) (gig : GigRecord) (clientId : String) (a1 a2 a3 : AppRecord)
    (hfind : db.applications.find? (fun a => a.appId == a1.appId) = some a1)
    (hmem2 : a2 ∈ db.applications) (hmem3 : a3 ∈ db.applications)
    (hgig : db.gigs a1.gigRefId = some gig)
    (howner : gig.clientId = some clientId)
    (hopen : gig.status = "OPEN")
    (hg2 : a2.gigRefId = a1.gigRefId) (hg3 : a3.gigRefId = a1.gigRefId)
    (hp2 : a2.status = "PENDING") (hp3 : a3.status = "PENDING")
    (hne2 : a2.appId ≠ a1.appId) (hne3 : a3.appId ≠ a1.appId)
    (hf12 : a1.freelancerId ≠ a2.freelancerId) (hf13 : a1.freelancerId ≠ a3.freelancerId)
    (hf23 : a2.freelancerId ≠ a3.freelancerId) :
    (acceptApplication db a1.appId clientId).1 = ApiResult.ok ∧
    { a1 with status := "ACCEPTED" } ∈ ((acceptApplication db a1.appId clientId).2).applications ∧
    { a2 with status := "REJECTED" } ∈ ((acceptApplication db a1.appId clientId).2).applications ∧
    { a3 with status := "REJECTED" } ∈ ((acceptApplication db a1.appId clientId).2).applications ∧
    (∀ b ∈ db.applications, b.gigRefId = a1.gigRefId → b.status = "PENDING" →
      b.appId ≠ a1.appId →
      { b with status := "REJECTED" } ∈ ((acceptApplication db a1.appId clientId).2).applications) := by
  have heq := acceptApplication_eq db a1.appId clientId a1 gig hfind hgig howner hopen
  rw [heq]
  have hmem1 : a1 ∈ db.applications := List.mem_of_find?_eq_some hfind
  refine ⟨rfl, ?_, ?_, ?_, ?_⟩
  · exact List.mem_map.mpr ⟨a1, hmem1, by simp⟩
  · exact List.mem_map.mpr ⟨a2, hmem2, by simp [hne2, hg2, hp2]⟩
  · exact List.mem_map.mpr ⟨a3, hmem3, by simp [hne3, hg3, hp3]⟩
  · intro b hb hbg hbs hbne
    exact List.mem_map.mpr ⟨b, hb, by simp [hbne, hbg, hbs]⟩

/-- C7 witness: accepting application 0 on the three-pending-application
fixture store. -/
theorem claim_C7_witness :
    ((dbApps.applications.find? (fun a => a.appId == appA1.appId) = some appA1 ∧
        appA2 ∈ dbApps.applications ∧ appA3 ∈ dbApps.applications ∧
        dbApps.gigs appA1.gigRefId = some gigOpenPublic ∧
        gigOpenPublic.clientId = some "0.0.2000" ∧ gigOpenPublic.status = "OPEN" ∧
        appA2.gigRefId = appA1.gigRefId ∧ appA3.gigRefId = appA1.gigRefId ∧
        appA2.status = "PENDING" ∧ appA3.status = "PENDING" ∧
        appA2.appId ≠ appA1.appId ∧ appA3.appId ≠ appA1.appId ∧
        appA1.freelancerId ≠ appA2.freelancerId ∧ appA1.freelancerId ≠ appA3.freelancerId ∧
        appA2.freelancerId ≠ appA3.freelancerId) ∧
      (acceptApplication dbApps appA1.appId "0.0.2000").1 = ApiResult.ok ∧
      { appA1 with status := "ACCEPTED" } ∈
        ((acceptApplication dbApps appA1.appId "0.0.2000").2).applications ∧
      { appA2 with status := "REJECTED" } ∈
        ((acceptApplication dbApps appA1.appId "0.0.2000").2).applications ∧
      { appA3 with status := "REJECTED" } ∈
        ((acceptApplication dbApps appA1.appId "0.0.2000").2).applications) := by
  refine ⟨by decide, ?_⟩
  have h := claim_C7 dbApps gigOpenPublic "0.0.2000" appA1 appA2 appA3
    (by decide) (by decide) (by decide) (by decide) (by decide) (by decide)
    (by decide) (by decide) (by decide) (by decide) (by decide) (by decide)
    (by decide) (by decide) (by decide)
  exact ⟨h.1, h.2.1, h.2.2.1, h.2.2.2.1⟩

theorem applyToGig_eq_success (db : Db) (g f c : String) (p : Option String)
    (hg : g ≠ "") (hf : f ≠ "") (hc : c ≠ "") (gig : GigRecord)
    (hgig : db.gigs g = some gig) (hvis : gig.visibility = "PUBLIC") (hopen : gig.status = "OPEN")
    (hnoapp : db.applications.any (fun a => a.gigRefId == g && a.freelancerId == f) = false) :
    applyToGig db g f c p =
      (ApiResult.created,
        { db with
          applications := db.applications ++
            [{ appId := db.nextAppId, gigRefId := g, freelancerId := f,
               coverLetter := c, proposedRate := p, status := "PENDING" }]
          nextAppId := db.nextAppId + 1 }) := by
  unfold applyToGig
  rw [if_neg (by simp [hg, hf, hc])]
  split
  · rename_i heq
    rw [hgig] at heq
    cases heq
  · rename_i gig' heq
    rw [hgig] at heq
    have h2 : gig = gig' := Option.some.inj heq
    subst h2
    rw [if_neg (by simp [hvis]), if_neg (by simp [hopen]), if_neg (by simp [hnoapp])]

theorem applyToGig_eq_conflict (db : Db) (g f c : String) (p : Option String)
    (hg : g ≠ "") (hf : f ≠ "") (hc : c ≠ "") (gig : GigRecord)
    (hgig : db.gigs g = some gig) (hvis : gig.visibility = "PUBLIC") (hopen : gig.status = "OPEN")
    (hhas : db.applications.any (fun a => a.gigRefId == g && a.freelancerId == f) = true) :
    applyToGig db g f c p = (ApiResult.conflict, db) := by
  unfold applyToGig
  rw [if_neg (by simp [hg, hf, hc])]
  split
  · rename_i heq
    rw [hgig] at heq
    cases heq
  · rename_i gig' heq
    rw [hgig] at heq
    have h2 : gig = gig' := Option.some.inj heq
    subst h2
    rw [if_neg (by simp [hvis]), if_neg (by simp [hopen]), if_pos hhas]

/-- C8: a freelancer's second application to the same gig is rejected
with a conflict and leaves the store unchanged, so exactly one
application record for the (gig, freelancer) pair exists after both
requests; and independently of the handler's pre-check the pair is
declared as a store-level `unique: true` compound index on the
application schema. -/
theorem claim_C8 (db : Db) (gigRefId freelancerId coverLetter cl2 : String)
    (proposedRate pr2 : Option String) (gig : GigRecord)
    (hg : gigRefId ≠ "") (hf : freelancerId ≠ "") (hcl : coverLetter ≠ "") (hcl2 : cl2 ≠ "")
    (hgig : db.gigs gigRefId = some gig) (hvis : gig.visibility = "PUBLIC")
    (hopen : gig.status = "OPEN")
    (hnone : ∀ a ∈ db.applications, ¬(a.gigRefId = gigRefId ∧ a.freelancerId = freelancerId)) :
    (applyToGig db gigRefId freelancerId coverLetter proposedRate).1 = ApiResult.created ∧
    pairCount (applyToGig db gigRefId freelancerId coverLetter proposedRate).2
        gigRefId freelancerId = 1 ∧
    (applyToGig (applyToGig db gigRefId freelancerId coverLetter proposedRate).2
        gigRefId freelancerId cl2 pr2).1 = ApiResult.conflict ∧
    (applyToGig (applyToGig db gigRefId freelancerId coverLetter proposedRate).2
        gigRefId freelancerId cl2 pr2).2 =
      (applyToGig db gigRefId freelancerId coverLetter proposedRate).2 ∧
    pairCount
        (applyToGig (applyToGig db gigRefId freelancerId coverLetter proposedRate).2
          gigRefId freelancerId cl2 pr2).2 gigRefId freelancerId = 1 ∧
    ["gigRefId", "freelancerId"] ∈ applicationSchemaUniqueIndexes := by
  have hnoapp : db.applications.any
      (fun a => a.gigRefId == gigRefId && a.freelancerId == freelancerId) = false := by
    rw [List.any_eq_false]
    intro a ha
    simp only [Bool.and_eq_true, beq_iff_eq, not_and]
    intro h1 h2
    exact hnone a ha ⟨h1, h2⟩
  have h1 := applyToGig_eq_success db gigRefId freelancerId coverLetter proposedRate
    hg hf hcl gig hgig hvis hopen hnoapp
  have hcount1 : pairCount (applyToGig db gigRefId freelancerId coverLetter proposedRate).2
      gigRefId freelancerId = 1 := by
    rw [h1]
    unfold pairCount
    show (List.filter _ (db.applications ++ [_])).length = 1
    rw [List.filter_append]
    have hz : db.applications.filter
        (fun a => a.gigRefId == gigRefId && a.freelancerId == freelancerId) = [] := by
      rw [List.filter_eq_nil_iff]
      intro a ha
      simp only [Bool.and_eq_true, beq_iff_eq, not_and]
      intro hh1 hh2
      exact hnone a ha ⟨hh1, hh2⟩
    rw [hz]
    simp
  have hgig1 : ((applyToGig db gigRefId freelancerId coverLetter proposedRate).2).gigs gigRefId =
      some gig := by
    rw [(applyToGig_frame db gigRefId freelancerId coverLetter proposedRate).1]
    exact hgig
  have hhas : ((applyToGig db gigRefId freelancerId coverLetter proposedRate).2).applications.any
      (fun a => a.gigRefId == gigRefId && a.freelancerId == freelancerId) = true := by
    rw [h1]
    rw [List.any_eq_true]
    refine ⟨{ appId := db.nextAppId, gigRefId := gigRefId, freelancerId := freelancerId,
              coverLetter := coverLetter, proposedRate := proposedRate, status := "PENDING" },
            ?_, by simp⟩
    exact List.mem_append.mpr (Or.inr (List.mem_singleton.mpr rfl))
  have h2 := applyToGig_eq_conflict
    (applyToGig db gigRefId freelancerId coverLetter proposedRate).2
    gigRefId freelancerId cl2 pr2 hg hf hcl2 gig hgig1 hvis hopen hhas
  refine ⟨by rw [h1], hcount1, by rw [h2], by rw [h2], ?_, by decide⟩
  rw [h2]
  exact hcount1

/-- C8 witness: first and second apply by freelancer 0.0.2001 on the
fixture store with one open public gig and no prior applications. -/
theorem claim_C8_witness :
    ((dbOpenGig.gigs "g4" = some gigOpenPublic ∧ gigOpenPublic.visibility = "PUBLIC" ∧
        gigOpenPublic.status = "OPEN" ∧
        (∀ a ∈ dbOpenGig.applications, ¬(a.gigRefId = "g4" ∧ a.freelancerId = "0.0.2001"))) ∧
      (applyToGig dbOpenGig "g4" "0.0.2001" "pick me" none).1 = ApiResult.created ∧
      pairCount (applyToGig dbOpenGig "g4" "0.0.2001" "pick me" none).2 "g4" "0.0.2001" = 1 ∧
      (applyToGig (applyToGig dbOpenGig "g4" "0.0.2001" "pick me" none).2
          "g4" "0.0.2001" "me again" none).1 = ApiResult.conflict ∧
      (applyToGig (applyToGig dbOpenGig "g4" "0.0.2001" "pick me" none).2
          "g4" "0.0.2001" "me again" none).2 =
        (applyToGig dbOpenGig "g4" "0.0.2001" "pick me" none).2 ∧
      pairCount (applyToGig (applyToGig dbOpenGig "g4" "0.0.2001" "pick me" none).2
          "g4" "0.0.2001" "me again" none).2 "g4" "0.0.2001" = 1 ∧
      ["gigRefId", "freelancerId"] ∈ applicationSchemaUniqueIndexes) := by
  refine ⟨⟨by decide, by decide, by decide, by decide⟩, ?_⟩
  exact claim_C8 dbOpenGig "g4" "0.0.2001" "pick me" "me again" none none gigOpenPublic
    (by decide) (by decide) (by decide) (by decide) (by decide) (by decide) (by decide)
    (by decide)

theorem submitReview_eq_gig (db : Db) (g r : String) (rating : Int) (comment : Option String)
    (gig : GigRecord) (hgr : g ≠ "") (hr : r ≠ "") (hra1 : 1 ≤ rating) (hra5 : rating ≤ 5)
    (hgig : db.gigs g = some gig) :
    submitReview db g r rating comment =
      (if gig.status ≠ "COMPLETED" ∧ gig.status ≠ "COMPLETED_BY_ARBITER" then
        (ApiResult.forbidden, db)
      else if gig.clientId = some r then
        submitReviewCreate db g r rating comment "CLIENT_TO_FREELANCER" gig.assignedFreelancerId
      else if gig.assignedFreelancerId = some r then
        submitReviewCreate db g r rating comment "FREELANCER_TO_CLIENT" gig.clientId
      else (ApiResult.forbidden, db)) := by
  unfold submitReview
  rw [if_neg (by simp [hgr, hr]), if_neg (by omega)]
  split
  · rename_i heq
    rw [hgig] at heq
    cases heq
  · rename_i gig' heq
    rw [hgig] at heq
    have h2 : gig = gig' := Option.some.inj heq
    subst h2
    rfl

/-- C9: a review submission (with well-formed fields) is 403-rejected
whenever the gig's status is neither `COMPLETED` nor
`COMPLETED_BY_ARBITER`; on a completed gig the review type is derived by
exact identity match — the gig's client gets `CLIENT_TO_FREELANCER`, the
assigned freelancer gets `FREELANCER_TO_CLIENT`; a reviewer matching
neither is hard-rejected with no review stored and no default type; and
a second review by the same reviewer for the same gig is a conflict that
leaves the store unchanged. -/
theorem claim_C9 :
    (∀ (db : Db) (g r : String) (rating : Int) (comment : Option String) (gig : GigRecord),
        g ≠ "" → r ≠ "" → 1 ≤ rating → rating ≤ 5 → db.gigs g = some gig →
        gig.status ≠ "COMPLETED" → gig.status ≠ "COMPLETED_BY_ARBITER" →
        submitReview db g r rating comment = (ApiResult.forbidden, db)) ∧
    (∀ (db : Db) (g r : String) (rating : Int) (comment : Option String) (gig : GigRecord),
        g ≠ "" → r ≠ "" → 1 ≤ rating → rating ≤ 5 → db.gigs g = some gig →
        (gig.status = "COMPLETED" ∨ gig.status = "COMPLETED_BY_ARBITER") →
        gig.clientId = some r →
        (∀ rv ∈ db.reviews, ¬(rv.gigRefId = g ∧ rv.reviewerId = r)) →
        submitReview db g r rating comment =
          (ApiResult.created,
            { db with reviews := db.reviews ++
                [{ gigRefId := g, reviewerId := r,
                   revieweeId := jsOrElse gig.assignedFreelancerId r, rating := rating,
                   comment := comment, reviewType := "CLIENT_TO_FREELANCER" }] })) ∧
    (∀ (db : Db) (g r : String) (rating : Int) (comment : Option String) (gig : GigRecord),
        g ≠ "" → r ≠ "" → 1 ≤ rating → rating ≤ 5 → db.gigs g = some gig →
        (gig.status = "COMPLETED" ∨ gig.status = "COMPLETED_BY_ARBITER") →
        gig.clientId ≠ some r → gig.assignedFreelancerId = some r →
        (∀ rv ∈ db.reviews, ¬(rv.gigRefId = g ∧ rv.reviewerId = r)) →
        submitReview db g r rating comment =
          (ApiResult.created,
            { db with reviews := db.reviews ++
                [{ gigRefId := g, reviewerId := r,
                   revieweeId := jsOrElse gig.clientId r, rating := rating,
                   comment := comment, reviewType := "FREELANCER_TO_CLIENT" }] })) ∧
    (∀ (db : Db) (g r : String) (rating : Int) (comment : Option String) (gig : GigRecord),
        g ≠ "" → r ≠ "" → 1 ≤ rating → rating ≤ 5 → db.gigs g = some gig →
        (gig.status = "COMPLETED" ∨ gig.status = "COMPLETED_BY_ARBITER") →
        gig.clientId ≠ some r → gig.assignedFreelancerId ≠ some r →
        submitReview db g r rating comment = (ApiResult.forbidden, db)) ∧
    (∀ (db : Db) (g r : String) (rating : Int) (comment : Option String) (gig : GigRecord),
        g ≠ "" → r ≠ "" → 1 ≤ rating → rating ≤ 5 → db.gigs g = some gig →
        (gig.status = "COMPLETED" ∨ gig.status = "COMPLETED_BY_ARBITER") →
        (gig.clientId = some r ∨ gig.assignedFreelancerId = some r) →
        (∃ rv ∈ db.reviews, rv.gigRefId = g ∧ rv.reviewerId = r) →
        submitReview db g r rating comment = (ApiResult.conflict, db)) := by
  have hnodupBool : ∀ (db : Db) (g r : String),
      (∀ rv ∈ db.reviews, ¬(rv.gigRefId = g ∧ rv.reviewerId = r)) →
      db.reviews.any (fun rv => rv.gigRefId == g && rv.reviewerId == r) = false := by
    intro db g r h
    rw [List.any_eq_false]
    intro rv hrv
    simp only [Bool.and_eq_true, beq_iff_eq, not_and]
    intro h1 h2
    exact h rv hrv ⟨h1, h2⟩
  have hdupBool : ∀ (db : Db) (g r : String),
      (∃ rv ∈ db.reviews, rv.gigRefId = g ∧ rv.reviewerId = r) →
      db.reviews.any (fun rv => rv.gigRefId == g && rv.reviewerId == r) = true := by
    intro db g r h
    obtain ⟨rv, hrv, h1, h2⟩ := h
    exact List.any_eq_true.mpr ⟨rv, hrv, by simp [h1, h2]⟩
  refine ⟨?_, ?_, ?_, ?_, ?_⟩
  · intro db g r rating comment gig hgr hr h1 h5 hgig hs1 hs2
    rw [submitReview_eq_gig db g r rating comment gig hgr hr h1 h5 hgig,
      if_pos ⟨hs1, hs2⟩]
  · intro db g r rating comment gig hgr hr h1 h5 hgig hst hcl hnodup
    rw [submitReview_eq_gig db g r rating comment gig hgr hr h1 h5 hgig,
      if_neg (by rcases hst with h | h <;> simp [h]), if_pos hcl]
    unfold submitReviewCreate
    rw [if_neg (by simp [hnodupBool db g r hnodup])]
  · intro db g r rating comment gig hgr hr h1 h5 hgig hst hclne hfl hnodup
    rw [submitReview_eq_gig db g r rating comment gig hgr hr h1 h5 hgig,
      if_neg (by rcases hst with h | h <;> simp [h]), if_neg hclne, if_pos hfl]
    unfold submitReviewCreate
    rw [if_neg (by simp [hnodupBool db g r hnodup])]
  · intro db g r rating comment gig hgr hr h1 h5 hgig hst hclne hflne
    rw [submitReview_eq_gig db g r rating comment gig hgr hr h1 h5 hgig,
      if_neg (by rcases hst with h | h <;> simp [h]), if_neg hclne, if_neg hflne]
  · intro db g r rating comment gig hgr hr h1 h5 hgig hst hpart hdup
    rw [submitReview_eq_gig db g r rating comment gig hgr hr h1 h5 hgig,
      if_neg (by rcases hst with h | h <;> simp [h])]
    by_cases hcl : gig.clientId = some r
    · rw [if_pos hcl]
      unfold submitReviewCreate
      rw [if_pos (hdupBool db g r hdup)]
    · rcases hpart with h | h
      · exact absurd h hcl
      · rw [if_neg hcl, if_pos h]
        unfold submitReviewCreate
        rw [if_pos (hdupBool db g r hdup)]

/-- C9 witness: on the completed-gig fixture, the client's first review
is stored as `CLIENT_TO_FREELANCER`, an outsider is hard-rejected, and
the client's second review conflicts. -/
theorem claim_C9_witness :
    ((dbCompleted.gigs "g6" = some gigCompleted ∧ gigCompleted.status = "COMPLETED" ∧
        gigCompleted.clientId = some "0.0.3000" ∧
        gigCompleted.assignedFreelancerId = some "0.0.3001") ∧
      submitReview dbCompleted "g6" "0.0.3000" 5 (some "great work") =
        (ApiResult.created,
          { dbCompleted with reviews :=
              [{ gigRefId := "g6", reviewerId := "0.0.3000", revieweeId := "0.0.3001",
                 rating := 5, comment := some "great work",
                 reviewType := "CLIENT_TO_FREELANCER" }] })) ∧
    submitReview dbCompleted "g6" "0.0.9999" 4 none = (ApiResult.forbidden, dbCompleted) ∧
    submitReview (submitReview dbCompleted "g6" "0.0.3000" 5 (some "great work")).2
        "g6" "0.0.3000" 2 none =
      (ApiResult.conflict, (submitReview dbCompleted "g6" "0.0.3000" 5 (some "great work")).2) := by
  refine ⟨⟨⟨by decide, by decide, by decide, by decide⟩, ?_⟩, ?_, ?_⟩
  · exact claim_C9.2.1 dbCompleted "g6" "0.0.3000" 5 (some "great work") gigCompleted
      (by decide) (by decide) (by decide) (by decide) (by decide) (Or.inl (by decide))
      (by decide) (by decide)
  · exact claim_C9.2.2.2.1 dbCompleted "g6" "0.0.9999" 4 none gigCompleted
      (by decide) (by decide) (by decide) (by decide) (by decide) (Or.inl (by decide))
      (by decide) (by decide)
  · exact claim_C9.2.2.2.2 (submitReview dbCompleted "g6" "0.0.3000" 5 (some "great work")).2
      "g6" "0.0.3000" 2 none gigCompleted
      (by decide) (by decide) (by decide) (by decide) (by decide) (Or.inl (by decide))
      (Or.inl (by decide)) (by decide)

end HireChain
